import Mathlib

/-!
Verification development for the glowboxremote adaptive streaming subsystem.

The definitions below are a shallow embedding of the two core components:

* src/rist/rist_manager.py — the pipeline session manager (RISTManager):
  configuration, pipeline command construction, start/stop lifecycle,
  stderr error classification and status reporting.
* src/rist/adaptive_controller.py — the adaptive controller:
  stats sampling, the bitrate adaptation policy, the link enable/disable
  policy, and persistence of the configuration document.

Python ints are modelled as Int, Python floats as exact rationals, and
fallible operations as Except / Option.  External effects that the source
delegates to collaborators (process survival of the launch grace interval,
the hot reload push into the session manager, plugin availability) are
modelled as explicit boolean oracle parameters, since the code only
branches on their success.
-/

/-- Python conversion int(x) applied to a float value, modelled on exact
rationals: truncation toward zero. -/
def pyInt (q : ℚ) : ℤ := if 0 ≤ q then q.floor else q.ceil

/-- Computable rational floor agrees with the Mathlib floor. -/
theorem ratFloor_eq_intFloor (q : ℚ) : q.floor = ⌊q⌋ := by
  rw [Rat.floor_def', Rat.floor_def]

/-- On nonnegative arguments Python int() truncation is the floor. -/
theorem pyInt_eq_floor (q : ℚ) (h : 0 ≤ q) : pyInt q = ⌊q⌋ := by
  rw [pyInt, if_pos h, ratFloor_eq_intFloor]

/-- Boolean substring test on character lists: the pattern occurs as a
contiguous infix of the haystack. -/
def sublistB (pat : List Char) : List Char → Bool
  | [] => pat.isEmpty
  | c :: t => pat.isPrefixOf (c :: t) || sublistB pat t

/-- Characters of a string, lowercased as Python str.lower does for the
ASCII range used by the error signatures. -/
def charsLower (s : String) : List Char := s.data.map Char.toLower

/-- Model of the Python expression pat in line.lower(). -/
def hasSub (line pat : String) : Bool := sublistB pat.data (charsLower line)

/-! ## Data model of src/rist/rist_manager.py -/

/-- RIST bonding methods (class BondingMethod). -/
inductive BondingMethod where
  | broadcast
  | round_robin
  deriving DecidableEq

/-- String value of a bonding method (the Enum value in the source). -/
def BondingMethod.value : BondingMethod → String
  | .broadcast => "broadcast"
  | .round_robin => "round-robin"

/-- Supported audio codecs (class AudioCodec). -/
inductive AudioCodec where
  | aac
  | opus
  deriving DecidableEq

/-- Supported video codecs (class VideoCodec). -/
inductive VideoCodec where
  | h264
  | h265
  deriving DecidableEq

/-- Audio encoding configuration (dataclass AudioConfig). -/
structure AudioConfig where
  codec : AudioCodec
  bitrate : ℤ
  sample_rate : ℤ := 48000
  channels : ℤ := 2
  deriving DecidableEq

/-- Video encoding configuration (dataclass VideoConfig). -/
structure VideoConfig where
  codec : VideoCodec
  width : ℤ
  height : ℤ
  framerate : ℤ
  bitrate : ℤ
  keyframe_interval : ℤ := 60
  deriving DecidableEq

/-- RIST link configuration (dataclass RISTLink). -/
structure RISTLink where
  address : String
  port : ℤ
  enabled : Bool := true
  weight : ℤ := 100
  deriving DecidableEq

/-- RIST protocol configuration (dataclass RISTConfig). -/
structure RISTConfig where
  links : List RISTLink
  bonding_method : BondingMethod := .broadcast
  sender_buffer : ℤ := 1200
  receiver_buffer : ℤ := 1200
  reorder_buffer : ℤ := 25
  rtt_min : ℤ := 50
  rtt_max : ℤ := 500
  fec_rows : ℤ := 4
  fec_columns : ℤ := 5
  max_retries : ℤ := 10
  deriving DecidableEq

/-- Mutable state of a RISTManager instance: the configuration slots, the
streaming flag, the launched process (by pid) and the last classified
error. -/
structure RM where
  rist_config : Option RISTConfig := none
  video_config : Option VideoConfig := none
  audio_config : Option AudioConfig := none
  is_streaming : Bool := false
  process : Option ℤ := none
  last_error : Option String := none
  deriving DecidableEq

/-- State of a freshly constructed RISTManager. -/
def initRM : RM := {}

/-- Path of the gst-launch binary computed in the constructor. -/
def gstLaunch : String := "/opt/gstreamer-1.24/bin/gst-launch-1.0"

/-- Method RISTManager.parse gst error: classify one stderr line into a
user facing message, in the priority order of the source. -/
def parseGstError (line : String) : Option String :=
  if hasSub line "no space left on device" then
    some "Speicherplatz voll - Stream kann nicht aufgezeichnet werden"
  else if hasSub line "could not open resource" || hasSub line "connection refused" then
    some "RIST-Verbindung fehlgeschlagen - Server nicht erreichbar"
  else if hasSub line "internal data flow error" then
    some "Pipeline-Fehler - Video/Audio-Quelle prüfen"
  else if hasSub line "streaming stopped" || hasSub line "eos" then
    some "RIST Stream unerwartet beendet"
  else if hasSub line "not negotiated" then
    some "Video/Audio-Format nicht unterstützt"
  else if hasSub line "no such element" || hasSub line "failed to create element" then
    some "GStreamer-Plugin fehlt - Installation prüfen"
  else if hasSub line "error" then
    some ("RIST Error: " ++ line.take 100)
  else
    none

/-- One iteration of the stderr monitor loop on a decoded line: only the
last classified error is retained. -/
def monitorLine (rm : RM) (line : String) : RM :=
  match parseGstError line with
  | some msg => { rm with last_error := some msg }
  | none => rm

/-- Method RISTManager.monitor stderr: consume the diagnostic stream line
by line; when the stream ends because the process exited the thread stops
without any further state change. -/
def monitorStderr (rm : RM) (lines : List String) : RM :=
  lines.foldl monitorLine rm

/-- Method RISTManager.configure: raises RuntimeError while streaming,
otherwise stores the configuration. -/
def configure (rm : RM) (rc : RISTConfig) (v : Option VideoConfig)
    (a : Option AudioConfig) : Except String RM :=
  if rm.is_streaming then
    Except.error "Cannot configure while streaming. Stop first."
  else
    Except.ok { rm with rist_config := some rc, video_config := v, audio_config := a }

/-- Method RISTManager.build video pipeline; the hp oracle answers the
gst-inspect plugin probe. -/
def buildVideoPipeline (hp : String → Bool) (vc : VideoConfig) : List String :=
  let elements := ["videotestsrc", "is-live=true", "!", "video/x-raw,format=I420",
    "width=" ++ toString vc.width ++ ",height=" ++ toString vc.height ++
      ",framerate=" ++ toString vc.framerate ++ "/1",
    "!", "videoconvert", "!"]
  match vc.codec with
  | .h264 =>
      elements ++ [(if hp "x264enc" then "x264enc" else "avenc_h264"),
        "bitrate=" ++ toString (vc.bitrate / 1000), "tune=zerolatency",
        "key-int-max=" ++ toString vc.keyframe_interval, "!", "h264parse", "!", "rtph264pay"]
  | .h265 =>
      elements ++ [(if hp "x265enc" then "x265enc" else "avenc_h265"),
        "bitrate=" ++ toString (vc.bitrate / 1000), "tune=zerolatency",
        "key-int-max=" ++ toString vc.keyframe_interval, "!", "h265parse", "!", "rtph265pay"]

/-- Method RISTManager.build audio pipeline. -/
def buildAudioPipeline (ac : AudioConfig) : List String :=
  let elements := ["audiotestsrc", "is-live=true", "!", "audioconvert", "!",
    "audio/x-raw,rate=" ++ toString ac.sample_rate ++ ",channels=" ++ toString ac.channels, "!"]
  match ac.codec with
  | .aac => elements ++ ["avenc_aac", "bitrate=" ++ toString ac.bitrate, "!",
      "aacparse", "!", "rtpmp4apay"]
  | .opus => elements ++ ["opusenc", "bitrate=" ++ toString ac.bitrate, "!",
      "opusparse", "!", "rtpopuspay"]

/-- Method RISTManager.build rist pipeline: the single link form addresses
links[0] directly and ignores its enabled flag; any other arity uses the
bonding form whose address list keeps only enabled links. -/
def buildRistPipeline (rc : RISTConfig) : List String :=
  match rc.links with
  | [link] =>
      ["ristsink", "address=" ++ link.address, "port=" ++ toString link.port,
        "sender-buffer=" ++ toString rc.sender_buffer, "stats-update-interval=1000"]
  | _ =>
      let links_str := String.intercalate ","
        (((rc.links.filter (fun l => l.enabled)).map
          (fun l => l.address ++ ":" ++ toString l.port)))
      ["ristsink", "address=" ++ links_str,
        "bonding-method=" ++ rc.bonding_method.value,
        "sender-buffer=" ++ toString rc.sender_buffer, "stats-update-interval=1000"]

/-- Method RISTManager.build pipeline command: raises when unconfigured,
otherwise assembles video branch, audio branch and RIST sink. -/
def buildPipelineCommand (rm : RM) (hp : String → Bool) : Except String (List String) :=
  match rm.rist_config with
  | none => Except.error "RIST not configured"
  | some rc =>
      let cmd := [gstLaunch]
      let cmd := match rm.video_config with
        | some vc => cmd ++ buildVideoPipeline hp vc
        | none => cmd
      let cmd := match rm.audio_config with
        | some ac => (if rm.video_config.isSome then cmd ++ ["!"] else cmd) ++
            buildAudioPipeline ac
        | none => cmd
      Except.ok (cmd ++ ["!"] ++ buildRistPipeline rc)

/-- Method RISTManager.start.  Already streaming returns False; an
unconfigured manager raises RuntimeError before the try block; inside the
try block every failure is caught and reported as False.  The survives
oracle tells whether the launched process is still alive after the one
second grace interval. -/
def start (rm : RM) (hp : String → Bool) (pid : ℤ) (survives : Bool) :
    Except String (RM × Bool) :=
  if rm.is_streaming then
    Except.ok (rm, false)
  else if rm.rist_config.isNone then
    Except.error "RIST not configured. Call configure() first."
  else
    match buildPipelineCommand rm hp with
    | Except.error e => Except.ok ({ rm with last_error := some e }, false)
    | Except.ok _cmd =>
        let rm1 := { rm with process := some pid }
        if survives then
          Except.ok ({ rm1 with is_streaming := true }, true)
        else
          Except.ok ({ rm1 with
            last_error := some "Pipeline konnte nicht gestartet werden" }, false)

/-- Method RISTManager.stop: not streaming returns False; otherwise the
teardown either succeeds (clearing the streaming flag and the process) or
raises inside the try block, which is caught and reported as False.  The
ok oracle stands for the signalling and wait calls succeeding. -/
def stop (rm : RM) (ok : Bool) : RM × Bool :=
  if rm.is_streaming = false ∨ rm.process.isNone then
    (rm, false)
  else if ok then
    ({ rm with is_streaming := false, process := none }, true)
  else
    (rm, false)

/-- Status snapshot returned by RISTManager.get status. -/
structure RMStatus where
  is_streaming : Bool
  configured : Bool
  links : Option ℕ
  bonding_method : Option String
  video : Option VideoConfig
  audio : Option AudioConfig
  pid : Option ℤ
  running : Option Bool
  error : Option String
  deriving DecidableEq

/-- Method RISTManager.get status; the poll argument is the result of
process.poll (none while the process is alive, the exit code after it
died). -/
def getStatus (rm : RM) (poll : Option ℤ) : RMStatus :=
  { is_streaming := rm.is_streaming
    configured := rm.rist_config.isSome
    links := rm.rist_config.map (fun rc => rc.links.length)
    bonding_method := rm.rist_config.map (fun rc => rc.bonding_method.value)
    video := rm.video_config
    audio := rm.audio_config
    pid := rm.process
    running := rm.process.map (fun _ => poll.isNone)
    error := rm.last_error }

/-- Discriminator for the Except results of the session manager API:
true exactly when the call returned instead of raising. -/
def isOkB {α : Type} : Except String α → Bool
  | Except.ok _ => true
  | Except.error _ => false

/-! ## Data model of src/rist/adaptive_controller.py -/

/-- Configuration for adaptive controller behavior (dataclass
AdaptiveConfig), with the default values of the source. -/
structure AdaptiveConfig where
  enabled : Bool := true
  adaptive_bitrate_enabled : Bool := true
  adaptive_links_enabled : Bool := true
  packet_loss_threshold_high : ℚ := 5
  packet_loss_threshold_low : ℚ := 1
  rtt_threshold_high : ℤ := 200
  bitrate_step_down : ℚ := 15/100
  bitrate_step_up : ℚ := 10/100
  min_video_bitrate : ℤ := 500000
  max_video_bitrate : ℤ := 10000000
  link_disable_signal_threshold : ℤ := 20
  link_enable_signal_threshold : ℤ := 40
  stats_check_interval : ℤ := 2
  config_save_interval : ℤ := 10
  stable_periods_before_increase : ℤ := 5
  immediate_decrease : Bool := true
  deriving DecidableEq

/-- Current state of the adaptive controller (dataclass AdaptiveState). -/
structure AdaptiveState where
  current_packet_loss : ℚ := 0
  current_rtt : ℤ := 0
  current_retransmissions : ℤ := 0
  current_video_bitrate : ℤ := 0
  current_audio_bitrate : ℤ := 0
  active_links : List String := []
  disabled_links : List String := []
  stable_periods : ℤ := 0
  last_adjustment_time : ℚ := 0
  total_bitrate_increases : ℤ := 0
  total_bitrate_decreases : ℤ := 0
  total_link_disables : ℤ := 0
  total_link_enables : ℤ := 0
  deriving DecidableEq

/-- Controller level mutable state around the AdaptiveState: the dirty
flag driving the persistence path. -/
structure Ctrl where
  state : AdaptiveState := {}
  config_dirty : Bool := false
  deriving DecidableEq

/-- Packet counters extracted from the stats dictionary. -/
structure PacketStats where
  sent_original_packets : ℤ := 0
  sent_retransmitted_packets : ℤ := 0
  deriving DecidableEq

/-- Method AdaptiveController.update rist stats: recompute the packet loss
percentage and refresh the cached bitrates from the session manager
configuration slots. -/
def updateRistStats (c : Ctrl) (stats : Option PacketStats)
    (video_bitrate audio_bitrate : Option ℤ) : Ctrl :=
  match stats with
  | none => c
  | some st =>
      let s1 := { c.state with
        current_packet_loss :=
          if st.sent_original_packets > 0 then
            (st.sent_retransmitted_packets : ℚ) / (st.sent_original_packets : ℚ) * 100
          else 0
        current_retransmissions := st.sent_retransmitted_packets }
      let s2 := match video_bitrate with
        | some b => { s1 with current_video_bitrate := b }
        | none => s1
      let s3 := match audio_bitrate with
        | some b => { s2 with current_audio_bitrate := b }
        | none => s2
      { c with state := s3 }

/-- Method AdaptiveController.apply video bitrate: on a successful hot
reload push the cached bitrate is updated and the persistence state is
marked dirty; on failure (rejected push or exception, both only logged)
nothing changes.  The ok oracle is the hot reload result. -/
def applyVideoBitrate (c : Ctrl) (new_bitrate : ℤ) (ok : Bool) : Ctrl :=
  if ok then
    { c with
      state := { c.state with current_video_bitrate := new_bitrate },
      config_dirty := true }
  else c

/-- Method AdaptiveController.adaptive bitrate control, one tick.  The ok
oracle is the hot reload result and now is the wall clock read by
time.time at the adjustment. -/
def adaptiveBitrateControl (cfg : AdaptiveConfig) (c : Ctrl) (ok : Bool)
    (now : ℚ) : Ctrl :=
  if c.state.current_video_bitrate = 0 then c
  else if (c.state.current_packet_loss > cfg.packet_loss_threshold_high ∨
      (c.state.current_rtt > cfg.rtt_threshold_high ∧ c.state.current_rtt > 0)) ∧
      cfg.immediate_decrease = true then
    let new_bitrate := max
      (pyInt ((c.state.current_video_bitrate : ℚ) * (1 - cfg.bitrate_step_down)))
      cfg.min_video_bitrate
    if new_bitrate < c.state.current_video_bitrate then
      let c1 := applyVideoBitrate c new_bitrate ok
      { c1 with state := { c1.state with
          stable_periods := 0
          total_bitrate_decreases := c1.state.total_bitrate_decreases + 1
          last_adjustment_time := now } }
    else c
  else if c.state.current_packet_loss < cfg.packet_loss_threshold_low ∧
      c.state.current_video_bitrate < cfg.max_video_bitrate then
    let c1 := { c with state :=
      { c.state with stable_periods := c.state.stable_periods + 1 } }
    if c.state.stable_periods + 1 ≥ cfg.stable_periods_before_increase then
      let new_bitrate := min
        (pyInt ((c.state.current_video_bitrate : ℚ) * (1 + cfg.bitrate_step_up)))
        cfg.max_video_bitrate
      if new_bitrate > c.state.current_video_bitrate then
        let c2 := applyVideoBitrate c1 new_bitrate ok
        { c2 with state := { c2.state with
            stable_periods := 0
            total_bitrate_increases := c2.state.total_bitrate_increases + 1
            last_adjustment_time := now } }
      else c1
    else c1
  else if c.state.current_packet_loss ≥ cfg.packet_loss_threshold_low then
    { c with state := { c.state with stable_periods := 0 } }
  else c

/-- Iterated bitrate control ticks, one wall clock reading per tick. -/
def runTicks (cfg : AdaptiveConfig) (ok : Bool) (c : Ctrl) (ts : List ℚ) : Ctrl :=
  ts.foldl (fun c t => adaptiveBitrateControl cfg c ok t) c

/-- Connectivity and signal of one modem (ModemStatus fields consumed by
the controller). -/
structure ModemStatus where
  connected : Bool
  signal_strength : ℤ
  deriving DecidableEq

/-- Method AdaptiveController.update modem stats: membership of the active
and disabled identifier lists. -/
def modemListsOf (cfg : AdaptiveConfig) (modems : List (String × ModemStatus)) :
    List String × List String :=
  modems.foldl
    (fun (acc : List String × List String) m =>
      if m.2.connected = true ∧ m.2.signal_strength ≥ cfg.link_enable_signal_threshold then
        (acc.1 ++ [m.1], acc.2)
      else if m.2.signal_strength < cfg.link_disable_signal_threshold then
        (acc.1, acc.2 ++ [m.1])
      else acc)
    ([], [])

/-- Python set equality of two identifier lists. -/
def listSetEq (a b : List String) : Bool :=
  a.all (fun x => b.contains x) && b.all (fun x => a.contains x)

/-- Method AdaptiveController.update modem stats: the lists are written to
the state only when the corresponding set changed. -/
def updateModemStats (cfg : AdaptiveConfig) (s : AdaptiveState)
    (modems : List (String × ModemStatus)) : AdaptiveState :=
  let (active, disabled) := modemListsOf cfg modems
  let s1 := if listSetEq active s.active_links then s
    else { s with active_links := active }
  if listSetEq disabled s1.disabled_links then s1
  else { s1 with disabled_links := disabled }

/-- Inner modem loop of AdaptiveController.adaptive link control for one
link: the accumulator carries the should-be-enabled flag (initially true),
the needs-update flag and the counter state; every decisive modem reading
overwrites the flag and counts a transition against the current link
state. -/
def linkModemFold (cfg : AdaptiveConfig) (link : RISTLink)
    (acc : Bool × Bool × AdaptiveState) (m : String × ModemStatus) :
    Bool × Bool × AdaptiveState :=
  if m.2.signal_strength < cfg.link_disable_signal_threshold then
    (false,
      (if link.enabled then true else acc.2.1),
      if link.enabled then
        { acc.2.2 with total_link_disables := acc.2.2.total_link_disables + 1 }
      else acc.2.2)
  else if m.2.signal_strength ≥ cfg.link_enable_signal_threshold then
    (true,
      (if link.enabled then acc.2.1 else true),
      if link.enabled then acc.2.2
      else { acc.2.2 with total_link_enables := acc.2.2.total_link_enables + 1 })
  else acc

/-- Outer link loop of AdaptiveController.adaptive link control: rebuild
the link list with the decided enabled flags and report whether any
transition was observed. -/
def adaptiveLinkControl (cfg : AdaptiveConfig) (links : List RISTLink)
    (modems : List (String × ModemStatus)) (s : AdaptiveState) :
    List RISTLink × Bool × AdaptiveState :=
  links.foldl
    (fun (acc : List RISTLink × Bool × AdaptiveState) link =>
      let inner := modems.foldl (linkModemFold cfg link) (true, acc.2.1, acc.2.2)
      (acc.1 ++ [{ address := link.address, port := link.port, enabled := inner.1 }],
        inner.2.1, inner.2.2))
    ([], false, s)

/-- Whole link policy tick: when an update is needed the rebuilt list is
pushed through the hot reload path (ok oracle); only a successful push
replaces the live link configuration and marks the config dirty. -/
def adaptiveLinkTick (cfg : AdaptiveConfig) (links : List RISTLink)
    (modems : List (String × ModemStatus)) (s : AdaptiveState) (ok : Bool) :
    List RISTLink × AdaptiveState × Bool :=
  let r := adaptiveLinkControl cfg links modems s
  if r.2.1 then
    (if ok then r.1 else links, r.2.2, ok)
  else
    (links, r.2.2, false)

/-! ## JSON document model for the persistence path -/

/-- JSON values as loaded by json.load: objects keep insertion order. -/
inductive Json where
  | null : Json
  | bool (b : Bool) : Json
  | num (q : ℚ) : Json
  | str (s : String) : Json
  | arr (xs : List Json) : Json
  | obj (kvs : List (String × Json)) : Json

/-- Lookup of a key in an object, first occurrence. -/
def getKey (kvs : List (String × Json)) (k : String) : Option Json :=
  match kvs with
  | [] => none
  | (k', v) :: t => if k' = k then some v else getKey t k

/-- Assignment d[k] = v on a Python dict modelled as an ordered
association list: replace the first binding in place, else append. -/
def setKey (kvs : List (String × Json)) (k : String) (v : Json) :
    List (String × Json) :=
  match kvs with
  | [] => [(k, v)]
  | (k', v') :: t => if k' = k then (k', v) :: t else (k', v') :: setKey t k v

/-- Subscript assignment j[k] = v when j should be a dict; any other value
raises TypeError, which the save path catches. -/
def setObjKey (j : Json) (k : String) (v : Json) : Option Json :=
  match j with
  | Json.obj kvs => some (Json.obj (setKey kvs k v))
  | _ => none

/-- JSON encoding of the link list written by the controller. -/
def linksJson (links : List RISTLink) : Json :=
  Json.arr (links.map (fun l =>
    Json.obj [("address", Json.str l.address), ("port", Json.num l.port),
      ("enabled", Json.bool l.enabled)]))

/-- Updates performed on the rist subtree value by the save path: the
video bitrate, the audio bitrate and the link list, each only when the
corresponding configuration slot is populated; a subscript assignment on
a non dict value raises, giving none. -/
def ristUpdates (j : Json) (video_config : Option VideoConfig)
    (audio_config : Option AudioConfig) (rist_config : Option RISTConfig) :
    Option Json :=
  let step1 := match video_config with
    | some vc => setObjKey j "video_bitrate" (Json.num vc.bitrate)
    | none => some j
  match step1 with
  | none => none
  | some j1 =>
      let step2 := match audio_config with
        | some ac => setObjKey j1 "audio_bitrate" (Json.num ac.bitrate)
        | none => some j1
      match step2 with
      | none => none
      | some j2 =>
          match rist_config with
          | some rc => setObjKey j2 "links" (linksJson rc.links)
          | none => some j2

/-- Method AdaptiveController.save config on an existing document: read
the whole document, ensure a rist subtree exists, write the bitrates and
the link list into it, and write the whole document back.  A none result
is the caught exception path in which nothing is written. -/
def saveConfig (doc : List (String × Json)) (video_config : Option VideoConfig)
    (audio_config : Option AudioConfig) (rist_config : Option RISTConfig) :
    Option (List (String × Json)) :=
  let doc1 := if (getKey doc "rist").isNone then setKey doc "rist" (Json.obj []) else doc
  match getKey doc1 "rist" with
  | none => none
  | some j0 =>
      match ristUpdates j0 video_config audio_config rist_config with
      | none => none
      | some j3 => some (setKey doc1 "rist" j3)

/-! ## Shared sample values -/

/-- Sample link used by concrete scenarios. -/
def sampleLink : RISTLink := { address := "192.168.1.100", port := 5004 }

/-- Sample single link transport configuration. -/
def sampleCfg : RISTConfig := { links := [sampleLink] }

/-- Plugin oracle answering every probe positively. -/
def hpT : String → Bool := fun _ => true

/-! ## C7: packet loss computation -/

/-- C7: for every stats sample taken by the adaptive controller, the
computed packet loss percentage equals retransmitted over original times
100 when the original packet count is positive, and 0 when it is zero. -/
theorem c7_packet_loss (c : Ctrl) (st : PacketStats) (vb ab : Option ℤ) :
    (0 < st.sent_original_packets →
      (updateRistStats c (some st) vb ab).state.current_packet_loss =
        (st.sent_retransmitted_packets : ℚ) / (st.sent_original_packets : ℚ) * 100) ∧
    (st.sent_original_packets = 0 →
      (updateRistStats c (some st) vb ab).state.current_packet_loss = 0) := by
  cases vb <;> cases ab <;>
    exact ⟨fun h => by simp [updateRistStats, h],
      fun h => by simp [updateRistStats, h]⟩

/-- Concrete stats sample: 200 original and 14 retransmitted packets. -/
def statsC7 : PacketStats :=
  { sent_original_packets := 200, sent_retransmitted_packets := 14 }

/-- Witness for C7 at a concrete stats sample. -/
theorem c7_packet_loss_witness :
    (0 : ℤ) < statsC7.sent_original_packets ∧
    (updateRistStats {} (some statsC7) none none).state.current_packet_loss =
      (statsC7.sent_retransmitted_packets : ℚ) / (statsC7.sent_original_packets : ℚ) * 100 :=
  ⟨by decide, (c7_packet_loss {} statsC7 none none).1 (by decide)⟩

/-! ## C10: the eos diagnostic signature -/

/-- C10: a line whose lowercase form contains the substring eos and
matches none of the earlier signatures of the classifier is mapped to the
unexpected stream end message, not to none. -/
theorem c10_eos_classifier (line : String)
    (h1 : hasSub line "no space left on device" = false)
    (h2 : hasSub line "could not open resource" = false)
    (h3 : hasSub line "connection refused" = false)
    (h4 : hasSub line "internal data flow error" = false)
    (h5 : hasSub line "streaming stopped" = false)
    (heos : hasSub line "eos" = true) :
    parseGstError line = some "RIST Stream unerwartet beendet" := by
  simp [parseGstError, h1, h2, h3, h4, h5, heos]

/-- Witness for C10: the word videos contains eos, so a harmless line is
classified as an unexpected stream end. -/
theorem c10_eos_classifier_witness :
    hasSub "Playing videos now" "no space left on device" = false ∧
    hasSub "Playing videos now" "could not open resource" = false ∧
    hasSub "Playing videos now" "connection refused" = false ∧
    hasSub "Playing videos now" "internal data flow error" = false ∧
    hasSub "Playing videos now" "streaming stopped" = false ∧
    hasSub "Playing videos now" "eos" = true ∧
    parseGstError "Playing videos now" = some "RIST Stream unerwartet beendet" :=
  ⟨by decide, by decide, by decide, by decide, by decide, by decide,
    c10_eos_classifier "Playing videos now" (by decide) (by decide) (by decide)
      (by decide) (by decide) (by decide)⟩

/-! ## C5: exceptions across the session manager API boundary -/

/-- C5 counterexample: start on an unconfigured manager and configure on
a streaming manager both raise RuntimeError instead of returning a
failure result. -/
theorem c5_counterexample :
    start initRM hpT 0 true =
      Except.error "RIST not configured. Call configure() first." ∧
    configure { initRM with is_streaming := true } sampleCfg none none =
      Except.error "Cannot configure while streaming. Stop first." :=
  ⟨rfl, rfl⟩

/-- C5 amended: the only session manager calls that raise are start on a
manager that is neither streaming nor configured and configure on a
streaming manager; stop reports not running as a false result without
raising. -/
theorem c5_amended_result_policy (rm : RM) (rc : RISTConfig) (v : Option VideoConfig)
    (a : Option AudioConfig) (hp : String → Bool) (pid : ℤ) (survives ok : Bool) :
    isOkB (start rm hp pid survives) = (rm.is_streaming || rm.rist_config.isSome) ∧
    isOkB (configure rm rc v a) = !rm.is_streaming ∧
    (rm.is_streaming = false → stop rm ok = (rm, false)) := by
  rcases rm with ⟨rcf, vcf, acf, st, pr, le⟩
  cases st <;> cases rcf <;> cases survives <;>
    simp [start, configure, stop, isOkB, buildPipelineCommand]

/-! ## C6: behavior on unexpected process exit -/

/-- Manager state right after a successful configure and start of the
sample configuration. -/
def rmC6run : RM :=
  { rist_config := some sampleCfg, is_streaming := true, process := some 4242 }

/-- C6 counterexample: after the pipeline process exits (poll returns an
exit code) the session performs no transition at all: the monitor thread
stops without touching the state, status still reports the session as
streaming, and configure still raises because the manager still counts as
streaming — there is no Crashed phase. -/
theorem c6_counterexample :
    configure initRM sampleCfg none none =
      Except.ok { initRM with rist_config := some sampleCfg } ∧
    start { initRM with rist_config := some sampleCfg } hpT 4242 true =
      Except.ok (rmC6run, true) ∧
    monitorStderr rmC6run [] = rmC6run ∧
    (getStatus rmC6run (some 0)).is_streaming = true ∧
    (getStatus rmC6run (some 0)).running = some false ∧
    configure rmC6run sampleCfg none none =
      Except.error "Cannot configure while streaming. Stop first." :=
  ⟨rfl, rfl, rfl, rfl, rfl, rfl⟩

/-- The monitor loop only ever rewrites the last error field. -/
theorem monitorLine_preserves (rm : RM) (line : String) :
    (monitorLine rm line).is_streaming = rm.is_streaming ∧
    (monitorLine rm line).process = rm.process ∧
    (monitorLine rm line).rist_config = rm.rist_config ∧
    (monitorLine rm line).video_config = rm.video_config ∧
    (monitorLine rm line).audio_config = rm.audio_config := by
  unfold monitorLine
  cases parseGstError line <;> exact ⟨rfl, rfl, rfl, rfl, rfl⟩

/-- Folding the monitor over any line sequence preserves every field of
the manager state except the last error. -/
theorem monitorStderr_preserves (lines : List String) (rm : RM) :
    (monitorStderr rm lines).is_streaming = rm.is_streaming ∧
    (monitorStderr rm lines).process = rm.process ∧
    (monitorStderr rm lines).rist_config = rm.rist_config ∧
    (monitorStderr rm lines).video_config = rm.video_config ∧
    (monitorStderr rm lines).audio_config = rm.audio_config := by
  induction lines generalizing rm with
  | nil => exact ⟨rfl, rfl, rfl, rfl, rfl⟩
  | cons l t ih =>
      have h1 := monitorLine_preserves rm l
      have h2 := ih (monitorLine rm l)
      exact ⟨h2.1.trans h1.1, h2.2.1.trans h1.2.1, h2.2.2.1.trans h1.2.2.1,
        h2.2.2.2.1.trans h1.2.2.2.1, h2.2.2.2.2.trans h1.2.2.2.2⟩

/-- C6 amended: on unexpected process exit no phase change happens; the
monitor thread only updates the last error and exits, the streaming flag
stays set, and a status query keeps reporting is streaming true with the
running field false once poll reports an exit code. -/
theorem c6_amended_no_phase_change (rm : RM) (lines : List String) (poll : Option ℤ) :
    (monitorStderr rm lines).is_streaming = rm.is_streaming ∧
    (monitorStderr rm lines).process = rm.process ∧
    (monitorStderr rm lines).rist_config = rm.rist_config ∧
    (getStatus (monitorStderr rm lines) poll).is_streaming = rm.is_streaming ∧
    (getStatus (monitorStderr rm lines) poll).running =
      rm.process.map (fun _ => poll.isNone) := by
  have h := monitorStderr_preserves lines rm
  refine ⟨h.1, h.2.1, h.2.2.1, h.1, ?_⟩
  show (monitorStderr rm lines).process.map (fun _ => poll.isNone) = _
  rw [h.2.1]

/-! ## C9: running sessions with no enabled link -/

/-- Single link configuration whose only link is disabled. -/
def disabledLink : RISTLink := { address := "10.0.0.1", port := 5004, enabled := false }

/-- Transport configuration with every link disabled. -/
def disabledCfg : RISTConfig := { links := [disabledLink] }

/-- Manager state after configure and start of the all disabled
configuration. -/
def rmC9run : RM :=
  { rist_config := some disabledCfg, is_streaming := true, process := some 99 }

/-- C9 counterexample: a session configured with a single disabled link
starts successfully and runs, and the pipeline builder addresses the
disabled link anyway, so a running session need not have any enabled
link. -/
theorem c9_counterexample :
    configure initRM disabledCfg none none =
      Except.ok { initRM with rist_config := some disabledCfg } ∧
    start { initRM with rist_config := some disabledCfg } hpT 99 true =
      Except.ok (rmC9run, true) ∧
    rmC9run.is_streaming = true ∧
    disabledCfg.links.all (fun l => !l.enabled) = true ∧
    buildRistPipeline disabledCfg =
      ["ristsink", "address=" ++ disabledLink.address,
        "port=" ++ toString disabledLink.port,
        "sender-buffer=" ++ toString (1200 : ℤ), "stats-update-interval=1000"] :=
  ⟨rfl, rfl, rfl, rfl, rfl⟩

/-- C9 amended: the session manager never validates the enabled flags:
start succeeds for every stored transport configuration once the process
survives the grace interval, and the single link pipeline form addresses
the link regardless of its enabled flag. -/
theorem c9_amended_no_validation (rc : RISTConfig) (v : Option VideoConfig)
    (a : Option AudioConfig) (hp : String → Bool) (pid : ℤ) :
    start { initRM with rist_config := some rc, video_config := v, audio_config := a }
        hp pid true =
      Except.ok ((⟨some rc, v, a, true, some pid, none⟩ : RM), true) ∧
    (∀ l : RISTLink, buildRistPipeline { links := [l] } =
      ["ristsink", "address=" ++ l.address, "port=" ++ toString l.port,
        "sender-buffer=" ++ toString (1200 : ℤ), "stats-update-interval=1000"]) :=
  ⟨rfl, fun _ => rfl⟩

/-! ## C4: state after a failed adaptive push -/

/-- Controller state sampling 7 percent loss at 2 Mbps with a partially
accumulated stability counter. -/
def ctrlC4 : Ctrl :=
  { state := { current_packet_loss := 7, current_video_bitrate := 2000000, stable_periods := 3 } }

/-- C4 counterexample: with the hot reload push failing (ok oracle false)
the tick still increments the decrease counter, resets the stability
counter and rewrites the last adjustment time; only the cached bitrate
and the dirty flag stay as they were. -/
theorem c4_counterexample :
    (adaptiveBitrateControl {} ctrlC4 false 100).state.total_bitrate_decreases =
      ctrlC4.state.total_bitrate_decreases + 1 ∧
    ctrlC4.state.total_bitrate_decreases = 0 ∧
    (adaptiveBitrateControl {} ctrlC4 false 100).state.stable_periods = 0 ∧
    ctrlC4.state.stable_periods = 3 ∧
    (adaptiveBitrateControl {} ctrlC4 false 100).state.last_adjustment_time = 100 ∧
    ctrlC4.state.last_adjustment_time = 0 ∧
    (adaptiveBitrateControl {} ctrlC4 false 100).state.current_video_bitrate =
      ctrlC4.state.current_video_bitrate := by
  with_unfolding_all decide

/-- C4 amended: a failed push leaves the cached bitrate and the dirty
flag unchanged, but the counters, the stability counter and the last
adjustment time evolve exactly as they would on a successful push. -/
theorem c4_amended_failed_push (cfg : AdaptiveConfig) (c : Ctrl) (now : ℚ) :
    (adaptiveBitrateControl cfg c false now).state.current_video_bitrate =
      c.state.current_video_bitrate ∧
    (adaptiveBitrateControl cfg c false now).config_dirty = c.config_dirty ∧
    (adaptiveBitrateControl cfg c false now).state.total_bitrate_decreases =
      (adaptiveBitrateControl cfg c true now).state.total_bitrate_decreases ∧
    (adaptiveBitrateControl cfg c false now).state.total_bitrate_increases =
      (adaptiveBitrateControl cfg c true now).state.total_bitrate_increases ∧
    (adaptiveBitrateControl cfg c false now).state.stable_periods =
      (adaptiveBitrateControl cfg c true now).state.stable_periods ∧
    (adaptiveBitrateControl cfg c false now).state.last_adjustment_time =
      (adaptiveBitrateControl cfg c true now).state.last_adjustment_time := by
  simp only [adaptiveBitrateControl, applyVideoBitrate]
  split_ifs <;> simp_all

/-! ## C1: the decrease branch of the bitrate policy -/

/-- C1: when the decrease trigger holds and immediate decrease is set,
the tick computes the floor of current times one minus the step down
fraction, raises it to the bitrate floor, and applies it only if the
result is strictly lower than the current bitrate (on a successful push
the cached bitrate becomes the new value); otherwise the tick leaves the
controller untouched. -/
theorem c1_decrease_branch (cfg : AdaptiveConfig) (c : Ctrl) (ok : Bool) (now : ℚ)
    (himm : cfg.immediate_decrease = true)
    (htrig : c.state.current_packet_loss > cfg.packet_loss_threshold_high ∨
      (c.state.current_rtt > cfg.rtt_threshold_high ∧ c.state.current_rtt > 0))
    (hpos : 0 < c.state.current_video_bitrate)
    (hstep : cfg.bitrate_step_down ≤ 1) :
    (max (⌊(c.state.current_video_bitrate : ℚ) * (1 - cfg.bitrate_step_down)⌋)
        cfg.min_video_bitrate < c.state.current_video_bitrate →
      ((ok = true →
        (adaptiveBitrateControl cfg c ok now).state.current_video_bitrate =
          max (⌊(c.state.current_video_bitrate : ℚ) * (1 - cfg.bitrate_step_down)⌋)
            cfg.min_video_bitrate) ∧
       (ok = false →
        (adaptiveBitrateControl cfg c ok now).state.current_video_bitrate =
          c.state.current_video_bitrate) ∧
       (adaptiveBitrateControl cfg c ok now).state.total_bitrate_decreases =
         c.state.total_bitrate_decreases + 1 ∧
       (adaptiveBitrateControl cfg c ok now).state.stable_periods = 0 ∧
       (adaptiveBitrateControl cfg c ok now).state.last_adjustment_time = now)) ∧
    (¬ max (⌊(c.state.current_video_bitrate : ℚ) * (1 - cfg.bitrate_step_down)⌋)
        cfg.min_video_bitrate < c.state.current_video_bitrate →
      adaptiveBitrateControl cfg c ok now = c) := by
  have hb0 : ¬ c.state.current_video_bitrate = 0 := ne_of_gt hpos
  have hq : (0 : ℚ) ≤ (c.state.current_video_bitrate : ℚ) * (1 - cfg.bitrate_step_down) :=
    mul_nonneg (by exact_mod_cast hpos.le) (by linarith)
  have hpy := pyInt_eq_floor _ hq
  simp only [adaptiveBitrateControl, applyVideoBitrate]
  rw [if_neg hb0, if_pos ⟨htrig, himm⟩, hpy]
  constructor
  · intro hlt
    rw [if_pos hlt]
    cases ok <;> simp
  · intro hge
    rw [if_neg hge]

/-- Controller state for the documented decrease scenario: 7 percent
loss at 2 Mbps. -/
def ctrlC1 : Ctrl :=
  { state := { current_packet_loss := 7, current_video_bitrate := 2000000 } }

set_option maxRecDepth 16000 in
/-- Witness for C1: with the default configuration, 2 Mbps and 7 percent
loss, the tick applies exactly 1700000 bps. -/
theorem c1_decrease_branch_witness :
    ({} : AdaptiveConfig).immediate_decrease = true ∧
    ctrlC1.state.current_packet_loss > ({} : AdaptiveConfig).packet_loss_threshold_high ∧
    0 < ctrlC1.state.current_video_bitrate ∧
    ({} : AdaptiveConfig).bitrate_step_down ≤ 1 ∧
    max (⌊(ctrlC1.state.current_video_bitrate : ℚ) *
        (1 - ({} : AdaptiveConfig).bitrate_step_down)⌋)
      ({} : AdaptiveConfig).min_video_bitrate = 1700000 ∧
    (adaptiveBitrateControl {} ctrlC1 true 42).state.current_video_bitrate = 1700000 ∧
    (adaptiveBitrateControl {} ctrlC1 true 42).state.total_bitrate_decreases = 1 ∧
    (adaptiveBitrateControl {} ctrlC1 true 42).state.stable_periods = 0 ∧
    (adaptiveBitrateControl {} ctrlC1 true 42).state.last_adjustment_time = 42 := by
  have hfl : (⌊(ctrlC1.state.current_video_bitrate : ℚ) *
      (1 - ({} : AdaptiveConfig).bitrate_step_down)⌋ : ℤ) = 1700000 := by
    rw [← ratFloor_eq_intFloor]
    with_unfolding_all decide
  have hmax : max (⌊(ctrlC1.state.current_video_bitrate : ℚ) *
      (1 - ({} : AdaptiveConfig).bitrate_step_down)⌋)
      ({} : AdaptiveConfig).min_video_bitrate = 1700000 := by
    rw [hfl]; decide
  have H := c1_decrease_branch {} ctrlC1 true 42 rfl (Or.inl (by decide)) (by decide)
    (by with_unfolding_all decide)
  have hlt : max (⌊(ctrlC1.state.current_video_bitrate : ℚ) *
      (1 - ({} : AdaptiveConfig).bitrate_step_down)⌋)
      ({} : AdaptiveConfig).min_video_bitrate < ctrlC1.state.current_video_bitrate := by
    rw [hmax]; decide
  obtain ⟨ht, _hf, hdec, hst, hla⟩ := H.1 hlt
  refine ⟨rfl, by decide, by decide, by with_unfolding_all decide, hmax, ?_, ?_, hst, hla⟩
  · rw [ht rfl, hmax]
  · rw [hdec]; decide

/-! ## C2: stability gating of the increase branch -/

/-- Qualifying tick conditions for a bitrate increase: a bitrate exists,
the decrease trigger does not fire, loss is below the low threshold and
the bitrate is below the ceiling. -/
def qualifies (cfg : AdaptiveConfig) (s : AdaptiveState) : Prop :=
  s.current_video_bitrate ≠ 0 ∧
  ¬((s.current_packet_loss > cfg.packet_loss_threshold_high ∨
      (s.current_rtt > cfg.rtt_threshold_high ∧ s.current_rtt > 0)) ∧
    cfg.immediate_decrease = true) ∧
  s.current_packet_loss < cfg.packet_loss_threshold_low ∧
  s.current_video_bitrate < cfg.max_video_bitrate

instance (cfg : AdaptiveConfig) (s : AdaptiveState) : Decidable (qualifies cfg s) := by
  unfold qualifies; infer_instance

/-- One qualifying tick below the gate only increments the stability
counter. -/
theorem tick_increment (cfg : AdaptiveConfig) (c : Ctrl) (ok : Bool) (now : ℚ)
    (hq : qualifies cfg c.state)
    (hlt : c.state.stable_periods + 1 < cfg.stable_periods_before_increase) :
    adaptiveBitrateControl cfg c ok now =
      { c with state := { c.state with
          stable_periods := c.state.stable_periods + 1 } } := by
  simp only [adaptiveBitrateControl]
  rw [if_neg hq.1, if_neg hq.2.1, if_pos ⟨hq.2.2.1, hq.2.2.2⟩,
    if_neg (not_le.mpr hlt)]

/-- Iterated qualifying ticks below the gate add the tick count to the
stability counter and change nothing else. -/
theorem runTicks_increment (cfg : AdaptiveConfig) (ok : Bool) (ts : List ℚ) (c : Ctrl)
    (hq : qualifies cfg c.state)
    (hlen : c.state.stable_periods + (ts.length : ℤ) < cfg.stable_periods_before_increase) :
    runTicks cfg ok c ts =
      { c with state := { c.state with
          stable_periods := c.state.stable_periods + (ts.length : ℤ) } } := by
  induction ts generalizing c with
  | nil => simp [runTicks]
  | cons t rest ih =>
      have hstep := tick_increment cfg c ok t hq
        (by push_cast [List.length_cons] at hlen ⊢; omega)
      have hnext := ih { c with state := { c.state with
          stable_periods := c.state.stable_periods + 1 } } hq
        (by show c.state.stable_periods + 1 + (rest.length : ℤ) <
              cfg.stable_periods_before_increase
            push_cast [List.length_cons] at hlen; omega)
      have e : c.state.stable_periods + ((rest.length : ℤ) + 1) =
          c.state.stable_periods + 1 + (rest.length : ℤ) := by ring
      show runTicks cfg ok (adaptiveBitrateControl cfg c ok t) rest =
        { c with state := { c.state with
            stable_periods := c.state.stable_periods + ((rest.length : ℤ) + 1) } }
      rw [e, hstep]
      exact hnext

/-- Once the incremented counter reaches the gate, the tick computes the
capped raised bitrate and applies it exactly when it is strictly higher,
resetting the counter and recording an increase. -/
theorem tick_fire (cfg : AdaptiveConfig) (c : Ctrl) (now : ℚ)
    (hq : qualifies cfg c.state)
    (hge : cfg.stable_periods_before_increase ≤ c.state.stable_periods + 1) :
    (min (pyInt ((c.state.current_video_bitrate : ℚ) * (1 + cfg.bitrate_step_up)))
        cfg.max_video_bitrate > c.state.current_video_bitrate →
      adaptiveBitrateControl cfg c true now = { c with
        state := { c.state with
          current_video_bitrate :=
            min (pyInt ((c.state.current_video_bitrate : ℚ) * (1 + cfg.bitrate_step_up)))
              cfg.max_video_bitrate
          stable_periods := 0
          total_bitrate_increases := c.state.total_bitrate_increases + 1
          last_adjustment_time := now }
        config_dirty := true }) ∧
    (¬ min (pyInt ((c.state.current_video_bitrate : ℚ) * (1 + cfg.bitrate_step_up)))
        cfg.max_video_bitrate > c.state.current_video_bitrate →
      adaptiveBitrateControl cfg c true now =
        { c with state := { c.state with
            stable_periods := c.state.stable_periods + 1 } }) := by
  simp only [adaptiveBitrateControl, applyVideoBitrate]
  rw [if_neg hq.1, if_neg hq.2.1, if_pos ⟨hq.2.2.1, hq.2.2.2⟩, if_pos hge]
  constructor
  · intro hgt
    rw [if_pos hgt]
    simp
  · intro hng
    rw [if_neg hng]

/-- C2 amended: for a run of qualifying ticks that starts with the
stability counter at zero, no increase happens and the counter simply
counts the ticks while fewer than the gate have elapsed; on the tick that
makes the count reach the gate, the bitrate is raised by the step up
fraction (capped at the ceiling), applied only if strictly higher, with
the counter reset to zero and an increase recorded.  The run start
premise is necessary: the counter survives a decrease trigger tick whose
computed bitrate is not strictly lower (see the counterexample below), so
a run entered with a stale counter fires earlier. -/
theorem c2_stability_gating (cfg : AdaptiveConfig) (c0 : Ctrl) (ts : List ℚ) (now : ℚ)
    (h0 : c0.state.stable_periods = 0) (hq : qualifies cfg c0.state) :
    ((ts.length : ℤ) < cfg.stable_periods_before_increase →
      (runTicks cfg true c0 ts).state.current_video_bitrate =
        c0.state.current_video_bitrate ∧
      (runTicks cfg true c0 ts).state.total_bitrate_increases =
        c0.state.total_bitrate_increases ∧
      (runTicks cfg true c0 ts).state.stable_periods = (ts.length : ℤ)) ∧
    ((ts.length : ℤ) + 1 = cfg.stable_periods_before_increase →
      ((min (pyInt ((c0.state.current_video_bitrate : ℚ) * (1 + cfg.bitrate_step_up)))
          cfg.max_video_bitrate > c0.state.current_video_bitrate →
        (adaptiveBitrateControl cfg (runTicks cfg true c0 ts) true now).state.current_video_bitrate =
          min (pyInt ((c0.state.current_video_bitrate : ℚ) * (1 + cfg.bitrate_step_up)))
            cfg.max_video_bitrate ∧
        (adaptiveBitrateControl cfg (runTicks cfg true c0 ts) true now).state.stable_periods = 0 ∧
        (adaptiveBitrateControl cfg (runTicks cfg true c0 ts) true now).state.total_bitrate_increases =
          c0.state.total_bitrate_increases + 1) ∧
       (¬ min (pyInt ((c0.state.current_video_bitrate : ℚ) * (1 + cfg.bitrate_step_up)))
          cfg.max_video_bitrate > c0.state.current_video_bitrate →
        (adaptiveBitrateControl cfg (runTicks cfg true c0 ts) true now).state.current_video_bitrate =
          c0.state.current_video_bitrate ∧
        (adaptiveBitrateControl cfg (runTicks cfg true c0 ts) true now).state.total_bitrate_increases =
          c0.state.total_bitrate_increases))) := by
  constructor
  · intro hlen
    have hr := runTicks_increment cfg true ts c0 hq (by omega)
    rw [hr]
    refine ⟨rfl, rfl, ?_⟩
    show c0.state.stable_periods + (ts.length : ℤ) = (ts.length : ℤ)
    omega
  · intro hlenN
    have hr := runTicks_increment cfg true ts c0 hq (by omega)
    have hf := tick_fire cfg
      { c0 with state := { c0.state with
          stable_periods := c0.state.stable_periods + (ts.length : ℤ) } } now hq
      (by show cfg.stable_periods_before_increase ≤
            c0.state.stable_periods + (ts.length : ℤ) + 1
          omega)
    rw [hr]
    constructor
    · intro hgt
      rw [hf.1 hgt]
      exact ⟨rfl, rfl, rfl⟩
    · intro hng
      rw [hf.2 hng]
      exact ⟨rfl, rfl⟩

/-- Controller state starting a stable run: no loss at 2 Mbps with the
stability counter at zero. -/
def ctrlC2 : Ctrl :=
  { state := { current_packet_loss := 0, current_video_bitrate := 2000000 } }

set_option maxRecDepth 16000 in
/-- Witness for C2: with the default gate of five periods, four
qualifying ticks change nothing, and the fifth applies 2200000 bps and
resets the counter. -/
theorem c2_stability_gating_witness :
    ctrlC2.state.stable_periods = 0 ∧
    qualifies {} ctrlC2.state ∧
    ((([(0 : ℚ), 0, 0, 0] : List ℚ).length : ℤ) + 1 =
      ({} : AdaptiveConfig).stable_periods_before_increase) ∧
    min (pyInt ((ctrlC2.state.current_video_bitrate : ℚ) *
        (1 + ({} : AdaptiveConfig).bitrate_step_up)))
      ({} : AdaptiveConfig).max_video_bitrate = 2200000 ∧
    (runTicks {} true ctrlC2 [0, 0, 0, 0]).state.total_bitrate_increases = 0 ∧
    (runTicks {} true ctrlC2 [0, 0, 0, 0]).state.stable_periods = 4 ∧
    (adaptiveBitrateControl {} (runTicks {} true ctrlC2 [0, 0, 0, 0])
      true 7).state.current_video_bitrate = 2200000 ∧
    (adaptiveBitrateControl {} (runTicks {} true ctrlC2 [0, 0, 0, 0])
      true 7).state.stable_periods = 0 ∧
    (adaptiveBitrateControl {} (runTicks {} true ctrlC2 [0, 0, 0, 0])
      true 7).state.total_bitrate_increases = 1 := by
  have hq : qualifies {} ctrlC2.state := by with_unfolding_all decide
  have hnb : min (pyInt ((ctrlC2.state.current_video_bitrate : ℚ) *
      (1 + ({} : AdaptiveConfig).bitrate_step_up)))
      ({} : AdaptiveConfig).max_video_bitrate = 2200000 := by
    with_unfolding_all decide
  have H := c2_stability_gating {} ctrlC2 [0, 0, 0, 0] 7 rfl hq
  have H1 := H.1 (by decide)
  have H2 := H.2 (by decide)
  have hgt : min (pyInt ((ctrlC2.state.current_video_bitrate : ℚ) *
      (1 + ({} : AdaptiveConfig).bitrate_step_up)))
      ({} : AdaptiveConfig).max_video_bitrate >
      ctrlC2.state.current_video_bitrate := by
    rw [hnb]; decide
  obtain ⟨hb, hsp, hinc⟩ := H2.1 hgt
  refine ⟨rfl, hq, by decide, hnb, ?_, ?_, ?_, hsp, ?_⟩
  · rw [H1.2.1]; decide
  · rw [H1.2.2]; decide
  · rw [hb, hnb]
  · rw [hinc]; decide


/-- Controller state at the bitrate floor during a loss spike, with a
partially accumulated stability counter. -/
def ctrlC2spike : Ctrl :=
  { state := { current_packet_loss := 7, current_video_bitrate := 500000, stable_periods := 3 } }

/-- Start of the following qualifying run: fresh samples show no loss
while the stale counter still holds 3. -/
def cRunC2 : Ctrl :=
  { state := { current_packet_loss := 0, current_video_bitrate := 500000, stable_periods := 3 } }

set_option maxRecDepth 16000 in
/-- C2 counterexample: a decrease trigger tick at the bitrate floor
computes max(floor(500000 * 0.85), 500000) = 500000, which is not
strictly lower, so the branch returns without resetting the stability
counter (the reset sits inside the strictly lower case); the counter
enters the next qualifying run at 3 and the increase to 550000 fires on
that run's second qualifying tick, before the five consecutive
qualifying ticks the claim requires. -/
theorem c2_counterexample :
    ctrlC2spike.state.current_packet_loss >
      ({} : AdaptiveConfig).packet_loss_threshold_high ∧
    ctrlC2spike.state.current_video_bitrate = ({} : AdaptiveConfig).min_video_bitrate ∧
    ctrlC2spike.state.stable_periods = 3 ∧
    adaptiveBitrateControl {} ctrlC2spike true 1 = ctrlC2spike ∧
    updateRistStats ctrlC2spike
      (some { sent_original_packets := 100, sent_retransmitted_packets := 0 })
      none none = cRunC2 ∧
    cRunC2.state.current_packet_loss < ({} : AdaptiveConfig).packet_loss_threshold_low ∧
    cRunC2.state.current_video_bitrate < ({} : AdaptiveConfig).max_video_bitrate ∧
    cRunC2.state.total_bitrate_increases = 0 ∧
    (adaptiveBitrateControl {} cRunC2 true 2).state.current_packet_loss <
      ({} : AdaptiveConfig).packet_loss_threshold_low ∧
    (adaptiveBitrateControl {} cRunC2 true 2).state.current_video_bitrate <
      ({} : AdaptiveConfig).max_video_bitrate ∧
    (adaptiveBitrateControl {} cRunC2 true 2).state.total_bitrate_increases = 0 ∧
    (2 : ℤ) < ({} : AdaptiveConfig).stable_periods_before_increase ∧
    (runTicks {} true cRunC2 [2, 3]).state.total_bitrate_increases = 1 ∧
    (runTicks {} true cRunC2 [2, 3]).state.current_video_bitrate = 550000 ∧
    (runTicks {} true cRunC2 [2, 3]).state.stable_periods = 0 := by
  refine ⟨by decide, by decide, by decide, by with_unfolding_all rfl,
    by with_unfolding_all rfl, by decide, by decide, by decide,
    by with_unfolding_all decide, by with_unfolding_all decide,
    by with_unfolding_all decide, by decide, by with_unfolding_all decide,
    by with_unfolding_all decide, by with_unfolding_all decide⟩

/-! ## C3: link hysteresis under the unmapped modem loop -/

/-- A currently disabled link. -/
def linkC3 : RISTLink := { address := "10.0.0.1", port := 5004, enabled := false }

/-- Two modem readings: M1 strictly inside the hysteresis dead band and
M2 above the enable threshold. -/
def modemsC3 : List (String × ModemStatus) :=
  [("M1", { connected := true, signal_strength := 30 }),
   ("M2", { connected := true, signal_strength := 50 })]

set_option maxRecDepth 16000 in
/-- C3 evaluation at the failing input: the link control loop iterates
every modem for every link without a link to modem mapping, so the last
decisive reading (M2 at 50) re-enables the disabled link even though the
dead band reading of M1 at 30 lies strictly between the thresholds; the
rebuilt list is pushed and an enable transition is recorded. -/
theorem c3_code_bug_eval :
    linkC3.enabled = false ∧
    ({} : AdaptiveConfig).link_disable_signal_threshold < 30 ∧
    (30 : ℤ) < ({} : AdaptiveConfig).link_enable_signal_threshold ∧
    (adaptiveLinkTick {} [linkC3] modemsC3 {} true).1 =
      [{ address := "10.0.0.1", port := 5004, enabled := true }] ∧
    (adaptiveLinkTick {} [linkC3] modemsC3 {} true).2.1.total_link_enables = 1 ∧
    (adaptiveLinkTick {} [linkC3] modemsC3 {} true).2.2 = true := by
  refine ⟨rfl, by decide, by decide, ?_, ?_, ?_⟩ <;> rfl

/-! ## C8: the persistence path only touches its own keys -/

/-- Writing a key leaves that key bound to the written value. -/
theorem getKey_setKey_self (kvs : List (String × Json)) (k : String) (v : Json) :
    getKey (setKey kvs k v) k = some v := by
  induction kvs with
  | nil => simp [setKey, getKey]
  | cons p t ih =>
      by_cases hk : p.1 = k
      · simp [setKey, getKey, hk]
      · simp [setKey, getKey, hk, ih]

/-- Writing a key leaves every other key bound as before. -/
theorem getKey_setKey_ne {k k' : String} (kvs : List (String × Json)) (v : Json)
    (h : k' ≠ k) : getKey (setKey kvs k v) k' = getKey kvs k' := by
  induction kvs with
  | nil => simp [setKey, getKey, Ne.symm h]
  | cons p t ih =>
      by_cases hk : p.1 = k
      · simp [setKey, getKey, hk, Ne.symm h]
      · simp [setKey, getKey, hk, ih]

/-- The rist subtree updates keep a dict a dict and only touch the three
controller keys. -/
theorem ristUpdates_obj (kvs : List (String × Json)) (v : Option VideoConfig)
    (a : Option AudioConfig) (rc : Option RISTConfig) :
    ∃ kvs2, ristUpdates (Json.obj kvs) v a rc = some (Json.obj kvs2) ∧
      ∀ k, k ≠ "video_bitrate" → k ≠ "audio_bitrate" → k ≠ "links" →
        getKey kvs2 k = getKey kvs k := by
  cases v <;> cases a <;> cases rc <;>
  · refine ⟨_, rfl, ?_⟩
    intro k h1 h2 h3
    simp only [getKey_setKey_ne _ _ h1, getKey_setKey_ne _ _ h2,
      getKey_setKey_ne _ _ h3]

/-- C8: whenever the save path writes the document back, every top level
key other than rist is unchanged, and inside an existing rist dict every
key other than video bitrate, audio bitrate and links is unchanged. -/
theorem c8_save_config_frame (doc : List (String × Json)) (v : Option VideoConfig)
    (a : Option AudioConfig) (rc : Option RISTConfig) (out : List (String × Json))
    (h : saveConfig doc v a rc = some out) :
    (∀ k, k ≠ "rist" → getKey out k = getKey doc k) ∧
    (∀ k kvs kvs2, k ≠ "video_bitrate" → k ≠ "audio_bitrate" → k ≠ "links" →
      getKey doc "rist" = some (Json.obj kvs) →
      getKey out "rist" = some (Json.obj kvs2) →
      getKey kvs2 k = getKey kvs k) := by
  cases hrist : getKey doc "rist" with
  | none =>
      obtain ⟨kvs2, hru, _⟩ := ristUpdates_obj [] v a rc
      have hsave : saveConfig doc v a rc =
          some (setKey (setKey doc "rist" (Json.obj [])) "rist" (Json.obj kvs2)) := by
        simp [saveConfig, hrist, getKey_setKey_self, hru]
      have hout : setKey (setKey doc "rist" (Json.obj [])) "rist" (Json.obj kvs2) = out :=
        Option.some.inj (hsave.symm.trans h)
      constructor
      · intro k hk
        rw [← hout, getKey_setKey_ne _ _ hk, getKey_setKey_ne _ _ hk]
      · intro k kvs kvs3 _ _ _ hdoc _
        exact Option.noConfusion hdoc
  | some j =>
      cases hru : ristUpdates j v a rc with
      | none =>
          have hsave : saveConfig doc v a rc = none := by
            simp [saveConfig, hrist, hru]
          rw [hsave] at h
          exact Option.noConfusion h
      | some j3 =>
          have hsave : saveConfig doc v a rc = some (setKey doc "rist" j3) := by
            simp [saveConfig, hrist, hru]
          have hout : setKey doc "rist" j3 = out :=
            Option.some.inj (hsave.symm.trans h)
          constructor
          · intro k hk
            rw [← hout, getKey_setKey_ne _ _ hk]
          · intro k kvs kvs3 h1 h2 h3 hdoc hout2
            have hj : j = Json.obj kvs := Option.some.inj hdoc
            subst hj
            obtain ⟨kvs4, hru2, hfr⟩ := ristUpdates_obj kvs v a rc
            have hj3 : j3 = Json.obj kvs4 := Option.some.inj (hru.symm.trans hru2)
            subst hj3
            rw [← hout, getKey_setKey_self] at hout2
            have hk34 : Json.obj kvs4 = Json.obj kvs3 := Option.some.inj hout2
            cases hk34
            exact hfr k h1 h2 h3

/-- Concrete configuration document with unrelated fields. -/
def docC8 : List (String × Json) :=
  [("foo", Json.str "bar"),
   ("rist", Json.obj [("extra", Json.bool true)]),
   ("remote", Json.num 9)]

/-- Video configuration written by the witness save. -/
def vcC8 : VideoConfig :=
  { codec := .h264, width := 1280, height := 720, framerate := 30, bitrate := 2000000 }

/-- Transport configuration written by the witness save. -/
def rcC8 : RISTConfig := { links := [{ address := "1.2.3.4", port := 5004 }] }

/-- Document written back by the witness save. -/
def outC8 : List (String × Json) :=
  [("foo", Json.str "bar"),
   ("rist", Json.obj [("extra", Json.bool true),
      ("video_bitrate", Json.num ((2000000 : ℤ) : ℚ)),
      ("links", Json.arr [Json.obj [("address", Json.str "1.2.3.4"),
        ("port", Json.num ((5004 : ℤ) : ℚ)), ("enabled", Json.bool true)]])]),
   ("remote", Json.num 9)]

/-- Witness for C8 at a concrete document: the unrelated top level keys
survive the read modify write untouched. -/
theorem c8_save_config_frame_witness :
    saveConfig docC8 (some vcC8) none (some rcC8) = some outC8 ∧
    getKey outC8 "foo" = getKey docC8 "foo" ∧
    getKey outC8 "remote" = getKey docC8 "remote" := by
  have h : saveConfig docC8 (some vcC8) none (some rcC8) = some outC8 := rfl
  have H := c8_save_config_frame docC8 (some vcC8) none (some rcC8) outC8 h
  exact ⟨h, H.1 "foo" (by decide), H.1 "remote" (by decide)⟩

/-- Witness for the amended C5 result policy on a fresh manager: start
raises (not ok), configure succeeds, stop reports failure without
raising. -/
theorem c5_amended_result_policy_witness :
    isOkB (start initRM hpT 0 true) = false ∧
    isOkB (configure initRM sampleCfg none none) = true ∧
    stop initRM true = (initRM, false) := by
  have H := c5_amended_result_policy initRM sampleCfg none none hpT 0 true true
  exact ⟨by rw [H.1]; rfl, by rw [H.2.1]; rfl, H.2.2 rfl⟩
